import Mathlib

/-!
Verification development for the Bridgit-AI translation-session core.

The definitions below are a shallow embedding of the TypeScript sources:
the session orchestration state machine (TranslationFSM in
src/client/lib/services/openrouter.ts, second document: the fsm module),
the enhancement step of OpenRouterService, the AblyService translation
subscription (src/unnamed/part_000), and the AudioRecorderService event
registry (src/client/lib/services/recorder.ts).  External calls
(Ably, Neon, WebRTC, STT, DeepL, OpenRouter, ElevenLabs) are modelled by
an environment record holding the outcome of each call; the handlers
consume those outcomes exactly where the source awaits the calls.
-/

namespace Bridgit

/-- Operating mode field of the FSM context: the source uses the string
union "just-me" | "talk-together". -/
inductive Mode where
  | justMe
  | talkTogether
deriving DecidableEq

/-- FSMState from the fsm module. -/
inductive FSMState where
  | idle
  | connecting
  | connected
  | hosting
  | joining
  | recording
  | processing
  | translating
  | awaiting_send
  | sending
  | speaking
  | error
  | disconnected
deriving DecidableEq

/-- FSMEvent from the fsm module. -/
inductive FSMEvent where
  | START_HOST
  | START_JOIN
  | JOIN_SUCCESS
  | CONNECTION_ESTABLISHED
  | START_RECORDING
  | STOP_RECORDING
  | AUDIO_READY
  | TRANSLATION_COMPLETE
  | SEND_TRANSLATION
  | SKIP_SEND
  | SPEECH_COMPLETE
  | ERROR
  | DISCONNECT
  | RESET
deriving DecidableEq

/-- TranslationMessage from the ably module (src/unnamed/part_000).
Audio blobs and buffers are opaque to the core, so they are modelled as
natural-number handles.  The sessionId field is a String because the
source builds it with a non-null assertion. -/
structure TranslationMessage where
  id : String
  sessionId : String
  senderId : String
  originalText : String
  translatedText : String
  sourceLanguage : String
  targetLanguage : String
  timestamp : Nat
  audioUrl : Option String
deriving DecidableEq

/-- The pendingTranslation record of FSMContext. -/
structure PendingTranslation where
  originalText : String
  translatedText : String
  audioBuffer : Option Nat
deriving DecidableEq

/-- FSMContext from the fsm module. -/
structure FSMContext where
  sessionId : Option String
  userId : String
  username : String
  isHost : Bool
  mode : Mode
  participants : List String
  currentRecording : Option Nat
  lastTranslation : Option TranslationMessage
  pendingTranslation : Option PendingTranslation
  error : Option String
  sourceLanguage : String
  targetLanguage : String
deriving DecidableEq

/-- The data argument of send: the source passes objects carrying an
error message (for ERROR) or a session id (for START_JOIN). -/
structure EventData where
  error : Option String
  sessionId : Option String
deriving DecidableEq

/-- Event data carrying nothing. -/
def noData : EventData := ⟨none, none⟩

/-- Event data carrying an error message, as in send of ERROR. -/
def errData (m : String) : EventData := ⟨some m, none⟩

/-- Outcomes of the external calls the FSM actions await.  Each field is
the result of the corresponding service call: ok carries the value the
source destructures, error carries the thrown message. -/
structure ExtEnv where
  ablyCreateSession : Except String String
  neonCreateSession : Except String Unit
  neonAddParticipant : Except String Unit
  webrtcStartAudioStream : Except String Unit
  ablyJoinSession : Except String Unit
  recorderInit : Except String Unit
  recorderStart : Except String Unit
  ablyUpdateStatusSpeaking : Except String Unit
  ablyUpdateStatusConnected : Except String Unit
  recorderStopResult : Option Nat
  sttResult : Except String String
  deeplResult : Except String String
  openRouterResult : Except String (Option String)
  elevenTts : Except String Nat
  elevenStreamAndPlay : Except String Unit
  elevenPlayBuffer : Except String Unit
  ablySendTranslation : Except String Unit
  neonSaveTranslation : Except String Unit
  ablyLeaveSession : Except String Unit
  neonRemoveParticipant : Except String Unit
  neonEndSession : Except String Unit
  recorderIsRecording : Bool
  nowMs : Nat

/-- Result of running a transition action: the action either returns
normally, possibly having fired one tail-position follow-up send, or it
throws with a message (mutations made before the throw persist).  Every
internal send of the source handlers is in tail position, so one
optional follow-up event models the source faithfully. -/
inductive HandlerResult where
  | ok (ctx : FSMContext) (followUp : Option (FSMEvent × EventData))
  | thrown (msg : String) (ctx : FSMContext)

/-- Context held in a HandlerResult. -/
def HandlerResult.ctxOf : HandlerResult → FSMContext
  | .ok c _ => c
  | .thrown _ c => c

/-- FSMTransition from the fsm module; the field named from in the
source is fromState, and to is toState, because both are Lean keywords. -/
structure FSMTransition where
  fromState : FSMState
  event : FSMEvent
  toState : FSMState
  guard : Option (FSMContext → EventData → Bool)
  action : Option (ExtEnv → FSMContext → EventData → HandlerResult)

/-- A machine configuration: currentState plus context. -/
structure FSMConfig where
  state : FSMState
  ctx : FSMContext
deriving DecidableEq

/-- The whitespace trim of JS String.prototype.trim as the source uses
it, implemented over the character list so that it reduces inside the
kernel. -/
def jsTrim (s : String) : String :=
  String.mk
    (((s.data.dropWhile Char.isWhitespace).reverse.dropWhile
        Char.isWhitespace).reverse)

/-- OpenRouterService.enhanceTranslation, abstracted over the outcome of
makeRequest.  The source returns the trimmed content of the first
choice, falling back to the unenhanced translatedText when the request
throws, when no content is present, or when the trimmed content is
empty (the JS or-fallback).  The catch makes this function total: an
enhancement failure is never rethrown. -/
def enhanceTranslation (outcome : Except String (Option String))
    (translatedText : String) : String :=
  match outcome with
  | .error _ => translatedText
  | .ok none => translatedText
  | .ok (some content) =>
      if jsTrim content = "" then translatedText else jsTrim content

/-- TranslationFSM.handleStartHost.  Sets isHost, creates the session,
persists records, starts the audio stream; any failure is caught and
converted into a tail send of ERROR with the message. -/
def handleStartHost (env : ExtEnv) (ctx : FSMContext) (_d : EventData) :
    HandlerResult :=
  let ctx := { ctx with isHost := true }
  match env.ablyCreateSession with
  | .error m => .ok ctx (some (.ERROR, errData m))
  | .ok sid =>
    let ctx := { ctx with sessionId := some sid }
    match env.neonCreateSession with
    | .error m => .ok ctx (some (.ERROR, errData m))
    | .ok _ =>
      match env.neonAddParticipant with
      | .error m => .ok ctx (some (.ERROR, errData m))
      | .ok _ =>
        match env.webrtcStartAudioStream with
        | .error m => .ok ctx (some (.ERROR, errData m))
        | .ok _ => .ok ctx (some (.CONNECTION_ESTABLISHED, noData))

/-- TranslationFSM.handleStartJoin. -/
def handleStartJoin (env : ExtEnv) (ctx : FSMContext) (d : EventData) :
    HandlerResult :=
  let ctx := { ctx with isHost := false, sessionId := d.sessionId }
  match env.ablyJoinSession with
  | .error m => .ok ctx (some (.ERROR, errData m))
  | .ok _ =>
    match env.neonAddParticipant with
    | .error m => .ok ctx (some (.ERROR, errData m))
    | .ok _ =>
      match env.webrtcStartAudioStream with
      | .error m => .ok ctx (some (.ERROR, errData m))
      | .ok _ => .ok ctx (some (.JOIN_SUCCESS, noData))

/-- TranslationFSM.handleStartRecording. -/
def handleStartRecording (env : ExtEnv) (ctx : FSMContext) (_d : EventData) :
    HandlerResult :=
  match env.recorderInit with
  | .error m => .ok ctx (some (.ERROR, errData m))
  | .ok _ =>
    match env.recorderStart with
    | .error m => .ok ctx (some (.ERROR, errData m))
    | .ok _ =>
      match env.ablyUpdateStatusSpeaking with
      | .error m => .ok ctx (some (.ERROR, errData m))
      | .ok _ => .ok ctx none

/-- TranslationFSM.handleStopRecording: stores the recorder result when
non-null, resets the participant status, then tail-sends AUDIO_READY. -/
def handleStopRecording (env : ExtEnv) (ctx : FSMContext) (_d : EventData) :
    HandlerResult :=
  let ctx :=
    match env.recorderStopResult with
    | some b => { ctx with currentRecording := some b }
    | none => ctx
  match env.ablyUpdateStatusConnected with
  | .error m => .ok ctx (some (.ERROR, errData m))
  | .ok _ => .ok ctx (some (.AUDIO_READY, noData))

/-- TranslationFSM.handleAudioReady: transcribes the stored recording;
when the trimmed transcript is empty it tail-sends ERROR, otherwise it
stores a pendingTranslation with an empty translatedText and tail-sends
TRANSLATION_COMPLETE. -/
def handleAudioReady (env : ExtEnv) (ctx : FSMContext) (_d : EventData) :
    HandlerResult :=
  match ctx.currentRecording with
  | none => .ok ctx (some (.ERROR, errData "No recording available"))
  | some _ =>
    match env.sttResult with
    | .error m => .ok ctx (some (.ERROR, errData ("STT failed: " ++ m)))
    | .ok text =>
      if jsTrim text = "" then
        .ok ctx (some (.ERROR, errData "No speech detected in recording"))
      else
        .ok { ctx with pendingTranslation := some ⟨text, "", none⟩ }
          (some (.TRANSLATION_COMPLETE, noData))

/-- TranslationFSM.handleTranslationComplete (just-me branch):
translate, enhance (best effort), synthesize, store the full
pendingTranslation.  Failures are caught and become a tail ERROR. -/
def handleTranslationComplete (env : ExtEnv) (ctx : FSMContext)
    (_d : EventData) : HandlerResult :=
  match ctx.pendingTranslation with
  | none => .ok ctx (some (.ERROR, errData "No text to translate"))
  | some pt =>
    if pt.originalText = "" then
      .ok ctx (some (.ERROR, errData "No text to translate"))
    else
      match env.deeplResult with
      | .error m => .ok ctx (some (.ERROR, errData m))
      | .ok ttext =>
        let enhanced := enhanceTranslation env.openRouterResult ttext
        match env.elevenTts with
        | .error m => .ok ctx (some (.ERROR, errData m))
        | .ok buf =>
          .ok { ctx with
                pendingTranslation := some ⟨pt.originalText, enhanced, some buf⟩ }
            none

/-- The translation message built by the sending handlers. -/
def mkMessage (env : ExtEnv) (ctx : FSMContext)
    (originalText translatedText : String) : TranslationMessage :=
  { id := "trans_" ++ toString env.nowMs
  , sessionId := ctx.sessionId.getD ""
  , senderId := ctx.userId
  , originalText := originalText
  , translatedText := translatedText
  , sourceLanguage := ctx.sourceLanguage
  , targetLanguage := ctx.targetLanguage
  , timestamp := env.nowMs
  , audioUrl := none }

/-- TranslationFSM.handleTranslationCompleteAutoPlay (talk-together
branch): translate, enhance (best effort), stream and play, persist
when a session id is present, record lastTranslation, tail-send
SPEECH_COMPLETE.  Note it never clears pendingTranslation. -/
def handleTranslationCompleteAutoPlay (env : ExtEnv) (ctx : FSMContext)
    (_d : EventData) : HandlerResult :=
  match ctx.pendingTranslation with
  | none => .ok ctx (some (.ERROR, errData "No text to translate"))
  | some pt =>
    if pt.originalText = "" then
      .ok ctx (some (.ERROR, errData "No text to translate"))
    else
      match env.deeplResult with
      | .error m => .ok ctx (some (.ERROR, errData m))
      | .ok ttext =>
        let enhanced := enhanceTranslation env.openRouterResult ttext
        match env.elevenStreamAndPlay with
        | .error m => .ok ctx (some (.ERROR, errData m))
        | .ok _ =>
          let msg := mkMessage env ctx pt.originalText enhanced
          match ctx.sessionId with
          | some _ =>
            match env.neonSaveTranslation with
            | .error m => .ok ctx (some (.ERROR, errData m))
            | .ok _ =>
              .ok { ctx with lastTranslation := some msg }
                (some (.SPEECH_COMPLETE, noData))
          | none =>
            .ok { ctx with lastTranslation := some msg }
              (some (.SPEECH_COMPLETE, noData))

/-- TranslationFSM.handleSendTranslation: publishes and persists the
pending exchange, plays the held audio, records lastTranslation, clears
pendingTranslation, tail-sends SPEECH_COMPLETE.  On a failure the catch
tail-sends ERROR and pendingTranslation is left in place. -/
def handleSendTranslation (env : ExtEnv) (ctx : FSMContext)
    (_d : EventData) : HandlerResult :=
  match ctx.pendingTranslation with
  | none => .ok ctx (some (.ERROR, errData "No pending translation to send"))
  | some pt =>
    let msg := mkMessage env ctx pt.originalText pt.translatedText
    let afterPublish : HandlerResult :=
      match pt.audioBuffer with
      | some _ =>
        match env.elevenPlayBuffer with
        | .error m => .ok ctx (some (.ERROR, errData m))
        | .ok _ =>
          .ok { ctx with lastTranslation := some msg,
                         pendingTranslation := none }
            (some (.SPEECH_COMPLETE, noData))
      | none =>
        .ok { ctx with lastTranslation := some msg,
                       pendingTranslation := none }
          (some (.SPEECH_COMPLETE, noData))
    match ctx.sessionId with
    | some _ =>
      match env.ablySendTranslation with
      | .error m => .ok ctx (some (.ERROR, errData m))
      | .ok _ =>
        match env.neonSaveTranslation with
        | .error m => .ok ctx (some (.ERROR, errData m))
        | .ok _ => afterPublish
    | none => afterPublish

/-- TranslationFSM.handleSkipSend: discards the pending exchange. -/
def handleSkipSend (_env : ExtEnv) (ctx : FSMContext) (_d : EventData) :
    HandlerResult :=
  .ok { ctx with pendingTranslation := none } none

/-- TranslationFSM.handleError: records the message carried by the
event data (the recorder cleanup it also performs does not touch the
context).  Note it does not clear pendingTranslation. -/
def handleError (_env : ExtEnv) (ctx : FSMContext) (d : EventData) :
    HandlerResult :=
  .ok { ctx with error := d.error } none

/-- The context reset performed at the end of handleDisconnect. -/
def resetCtx (ctx : FSMContext) : FSMContext :=
  { ctx with sessionId := none, participants := [], currentRecording := none,
             lastTranslation := none, pendingTranslation := none,
             error := none }

/-- The cleanup steps of handleDisconnect, in source order. -/
inductive CleanupStep where
  | stopRecorder
  | destroyRecorder
  | webrtcDisconnect
  | ablyLeave
  | removeParticipant
  | endSession
  | resetContext
deriving DecidableEq

/-- TranslationFSM.handleDisconnect, with a log of the cleanup steps
that completed.  The source wraps the whole sequence in a single
try/catch whose handler only logs, so the function is total (DISCONNECT
never throws) but a failing await abandons every later step, including
the context reset. -/
def handleDisconnectRun (env : ExtEnv) (ctx : FSMContext) :
    FSMContext × List CleanupStep :=
  let pre : List CleanupStep :=
    (if env.recorderIsRecording then [CleanupStep.stopRecorder] else []) ++
    [CleanupStep.destroyRecorder, CleanupStep.webrtcDisconnect]
  match env.ablyLeaveSession with
  | .error _ => (ctx, pre)
  | .ok _ =>
    let pre := pre ++ [CleanupStep.ablyLeave]
    match ctx.sessionId with
    | none => (resetCtx ctx, pre ++ [CleanupStep.resetContext])
    | some _ =>
      match env.neonRemoveParticipant with
      | .error _ => (ctx, pre)
      | .ok _ =>
        let pre := pre ++ [CleanupStep.removeParticipant]
        if ctx.isHost then
          match env.neonEndSession with
          | .error _ => (ctx, pre)
          | .ok _ =>
            (resetCtx ctx, pre ++ [CleanupStep.endSession, CleanupStep.resetContext])
        else (resetCtx ctx, pre ++ [CleanupStep.resetContext])

/-- handleDisconnect as a transition action. -/
def handleDisconnect (env : ExtEnv) (ctx : FSMContext) (_d : EventData) :
    HandlerResult :=
  .ok (handleDisconnectRun env ctx).1 none

/-- TranslationFSM.handleReset. -/
def handleReset (_env : ExtEnv) (ctx : FSMContext) (_d : EventData) :
    HandlerResult :=
  .ok { ctx with error := none, currentRecording := none } none

/-- TranslationFSM.setupTransitions.  The parameter ctorIsHost is the
value of this.context.isHost at construction time: the source computes
the target of the SKIP_SEND, SPEECH_COMPLETE and error RESET entries
with the ternary on this.context.isHost once, when the table is built,
so those targets are frozen; the guards are closures and read the live
context at send time. -/
def setupTransitions (ctorIsHost : Bool) : List FSMTransition :=
  [ ⟨.idle, .START_HOST, .connecting, none, some handleStartHost⟩
  , ⟨.idle, .START_JOIN, .connecting, none, some handleStartJoin⟩
  , ⟨.connecting, .CONNECTION_ESTABLISHED, .hosting,
      some (fun ctx _ => ctx.isHost), none⟩
  , ⟨.connecting, .JOIN_SUCCESS, .connected,
      some (fun ctx _ => !ctx.isHost), none⟩
  , ⟨.connecting, .ERROR, .error, none, some handleError⟩
  , ⟨.hosting, .START_RECORDING, .recording, none, some handleStartRecording⟩
  , ⟨.connected, .START_RECORDING, .recording, none, some handleStartRecording⟩
  , ⟨.recording, .STOP_RECORDING, .processing, none, some handleStopRecording⟩
  , ⟨.recording, .ERROR, .error, none, some handleError⟩
  , ⟨.processing, .AUDIO_READY, .translating, none, some handleAudioReady⟩
  , ⟨.processing, .ERROR, .error, none, some handleError⟩
  , ⟨.translating, .TRANSLATION_COMPLETE, .awaiting_send,
      some (fun ctx _ => decide (ctx.mode = Mode.justMe)),
      some handleTranslationComplete⟩
  , ⟨.translating, .TRANSLATION_COMPLETE, .speaking,
      some (fun ctx _ => decide (ctx.mode = Mode.talkTogether)),
      some handleTranslationCompleteAutoPlay⟩
  , ⟨.translating, .ERROR, .error, none, some handleError⟩
  , ⟨.awaiting_send, .SEND_TRANSLATION, .sending, none,
      some handleSendTranslation⟩
  , ⟨.awaiting_send, .SKIP_SEND,
      (if ctorIsHost then .hosting else .connected), none, some handleSkipSend⟩
  , ⟨.sending, .SPEECH_COMPLETE,
      (if ctorIsHost then .hosting else .connected), none, none⟩
  , ⟨.sending, .ERROR, .error, none, some handleError⟩
  , ⟨.speaking, .SPEECH_COMPLETE,
      (if ctorIsHost then .hosting else .connected), none, none⟩
  , ⟨.speaking, .ERROR, .error, none, some handleError⟩
  , ⟨.error, .RESET,
      (if ctorIsHost then .hosting else .connected), none, some handleReset⟩
  , ⟨.hosting, .DISCONNECT, .disconnected, none, some handleDisconnect⟩
  , ⟨.connected, .DISCONNECT, .disconnected, none, some handleDisconnect⟩
  , ⟨.recording, .DISCONNECT, .disconnected, none, some handleDisconnect⟩
  , ⟨.processing, .DISCONNECT, .disconnected, none, some handleDisconnect⟩
  , ⟨.translating, .DISCONNECT, .disconnected, none, some handleDisconnect⟩
  , ⟨.awaiting_send, .DISCONNECT, .disconnected, none, some handleDisconnect⟩
  , ⟨.sending, .DISCONNECT, .disconnected, none, some handleDisconnect⟩
  , ⟨.speaking, .DISCONNECT, .disconnected, none, some handleDisconnect⟩
  , ⟨.disconnected, .RESET, .idle, none, some handleReset⟩ ]

/-- The transition lookup of send: the first entry matching the current
state and the event (Array.prototype.find). -/
def findTransition (ts : List FSMTransition) (s : FSMState) (e : FSMEvent) :
    Option FSMTransition :=
  ts.find? (fun t => decide (t.fromState = s) && decide (t.event = e))

/-- Guard evaluation of send: a missing guard passes. -/
def guardPasses (t : FSMTransition) (ctx : FSMContext) (d : EventData) :
    Bool :=
  match t.guard with
  | none => true
  | some g => g ctx d

/-- One dispatch of send without follow-up processing: no matching
transition and a rejected guard are warn-and-return no-ops; otherwise
currentState is set to the target before the action runs, and a throw
from the action forces the state to error and records the message.  The
entered list collects the values successively assigned to
currentState. -/
inductive StepResult where
  | noTransition
  | guardRejected
  | advanced (entered : List FSMState) (cfg : FSMConfig)
      (followUp : Option (FSMEvent × EventData))

/-- One dispatch of TranslationFSM.send. -/
def sendOnce (table : List FSMTransition) (env : ExtEnv) (cfg : FSMConfig)
    (e : FSMEvent) (d : EventData) : StepResult :=
  match findTransition table cfg.state e with
  | none => .noTransition
  | some t =>
    if guardPasses t cfg.ctx d then
      match t.action with
      | none => .advanced [t.toState] ⟨t.toState, cfg.ctx⟩ none
      | some a =>
        match a env cfg.ctx d with
        | .ok ctx2 fu => .advanced [t.toState] ⟨t.toState, ctx2⟩ fu
        | .thrown msg ctx2 =>
          .advanced [t.toState, .error]
            ⟨.error, { ctx2 with error := some msg }⟩ none
    else .guardRejected

/-- send including the tail-position follow-up sends fired by the
actions, with fuel bounding the chain length; returns the final
configuration and the list of states entered along the way. -/
def sendLoop : Nat → List FSMTransition → ExtEnv → FSMConfig → FSMEvent →
    EventData → FSMConfig × List FSMState
  | 0, _, _, cfg, _, _ => (cfg, [])
  | fuel + 1, table, env, cfg, e, d =>
    match sendOnce table env cfg e d with
    | .noTransition => (cfg, [])
    | .guardRejected => (cfg, [])
    | .advanced entered cfg2 none => (cfg2, entered)
    | .advanced entered cfg2 (some (e2, d2)) =>
      let next := sendLoop fuel table env cfg2 e2 d2
      (next.1, entered ++ next.2)

/-- The configuration after a send completes. -/
def sendRun (fuel : Nat) (table : List FSMTransition) (env : ExtEnv)
    (cfg : FSMConfig) (e : FSMEvent) (d : EventData) : FSMConfig :=
  (sendLoop fuel table env cfg e d).1

/-- A sequence of external sends. -/
def sendSeq (fuel : Nat) (table : List FSMTransition) (env : ExtEnv) :
    FSMConfig → List (FSMEvent × EventData) → FSMConfig
  | cfg, [] => cfg
  | cfg, (e, d) :: rest => sendSeq fuel table env (sendRun fuel table env cfg e d) rest

/-- AblyService.onTranslationReceived (src/unnamed/part_000): the
subscription handler passes every message published on the session
translations topic straight to the registered callback, with no filter
on the sender.  The invocations caused by one publish are modelled as
the list of callback results. -/
def ablyDeliverTranslation {α : Type} (cb : TranslationMessage → α)
    (msg : TranslationMessage) : List α :=
  [cb msg]

/-- The callback TranslationFSM.setupEventHandlers registers with
AblyService.onTranslationReceived: when the senderId differs from the
local userId it stores lastTranslation and plays the audio; otherwise
it does nothing.  The Bool records whether playTranslationAudio was
invoked. -/
def fsmTranslationCallback (ctx : FSMContext) (t : TranslationMessage) :
    FSMContext × Bool :=
  if t.senderId ≠ ctx.userId then
    ({ ctx with lastTranslation := some t }, true)
  else (ctx, false)

/-- Lookup in the string-keyed callback registry, as Map.prototype.get. -/
def mapGet {α : Type} : List (String × α) → String → Option α
  | [], _ => none
  | (k, v) :: rest, q => if k = q then some v else mapGet rest q

/-- Map.prototype.delete on the registry: removes the entry for the key. -/
def mapDelete {α : Type} (m : List (String × α)) (k : String) :
    List (String × α) :=
  m.filter (fun p => decide (p.1 ≠ k))

/-- Map.prototype.set on the registry: at most one entry per key. -/
def mapSet {α : Type} (m : List (String × α)) (k : String) (v : α) :
    List (String × α) :=
  (k, v) :: mapDelete m k

/-- Number of registrations held for a key. -/
def countKey {α : Type} (m : List (String × α)) (k : String) : Nat :=
  (m.filter (fun p => decide (p.1 = k))).length

/-- AudioRecorderService.on (recorder.ts): eventCallbacks.set(event,
callback), and the returned unsubscribe closure deletes the entry for
that event name; the returned String is the key that closure deletes. -/
def recorderOn {α : Type} (m : List (String × α)) (event : String)
    (cb : α) : List (String × α) × String :=
  (mapSet m event cb, event)

/-- AudioRecorderService.emitEvent: looks up the single callback stored
for the event (the invoked callback, if any). -/
def emitEvent {α : Type} (m : List (String × α)) (event : String) :
    Option α :=
  mapGet m event

/-- The initial context the orchestrator builds the FSM with
(orchestrator.ts constructs TranslationFSM with isHost := false; the
FSM constructor adds participants := []). -/
def ctx0 : FSMContext :=
  { sessionId := none
  , userId := "u1"
  , username := "alice"
  , isHost := false
  , mode := Mode.justMe
  , participants := []
  , currentRecording := none
  , lastTranslation := none
  , pendingTranslation := none
  , error := none
  , sourceLanguage := "en"
  , targetLanguage := "es" }

/-- An environment in which every external call succeeds. -/
def envAllOk : ExtEnv :=
  { ablyCreateSession := .ok "sess1"
  , neonCreateSession := .ok ()
  , neonAddParticipant := .ok ()
  , webrtcStartAudioStream := .ok ()
  , ablyJoinSession := .ok ()
  , recorderInit := .ok ()
  , recorderStart := .ok ()
  , ablyUpdateStatusSpeaking := .ok ()
  , ablyUpdateStatusConnected := .ok ()
  , recorderStopResult := some 7
  , sttResult := .ok "hello"
  , deeplResult := .ok "hola"
  , openRouterResult := .ok (some "hola senor")
  , elevenTts := .ok 99
  , elevenStreamAndPlay := .ok ()
  , elevenPlayBuffer := .ok ()
  , ablySendTranslation := .ok ()
  , neonSaveTranslation := .ok ()
  , ablyLeaveSession := .ok ()
  , neonRemoveParticipant := .ok ()
  , neonEndSession := .ok ()
  , recorderIsRecording := false
  , nowMs := 1000 }

/-- The source states of the DISCONNECT transitions. -/
def disconnectSources : List FSMState :=
  [ .hosting, .connected, .recording, .processing, .translating
  , .awaiting_send, .sending, .speaking ]

/-- The table of an FSM constructed by the orchestrator: the context at
construction has isHost = false, so the frozen ternary targets are all
connected. -/
def tableOrch : List FSMTransition := setupTransitions false

/-- A full successful hosting run of an orchestrator-built FSM: host a
session, record, stop (the transcription, translation, enhancement and
synthesis all succeed, landing in awaiting_send), then confirm the
send.  The internal SPEECH_COMPLETE fired by handleSendTranslation ends
the run. -/
def hostRun : FSMConfig :=
  sendSeq 10 tableOrch envAllOk ⟨FSMState.idle, ctx0⟩
    [ (.START_HOST, noData)
    , (.START_RECORDING, noData)
    , (.STOP_RECORDING, noData)
    , (.SEND_TRANSLATION, noData) ]

/-- The same run truncated after START_HOST. -/
def hostRunConnected : FSMConfig :=
  sendSeq 10 tableOrch envAllOk ⟨FSMState.idle, ctx0⟩ [(.START_HOST, noData)]

/-- The same run truncated before the send confirmation. -/
def hostRunAwaiting : FSMConfig :=
  sendSeq 10 tableOrch envAllOk ⟨FSMState.idle, ctx0⟩
    [ (.START_HOST, noData)
    , (.START_RECORDING, noData)
    , (.STOP_RECORDING, noData) ]

/-- Claim C1: for every state, every event, and every transition whose
action throws during execution, after send completes the current state
is error and context.error holds the thrown message, regardless of the
declared target state of the transition. -/
theorem c1_action_throw_forces_error
    (table : List FSMTransition) (env : ExtEnv) (cfg : FSMConfig)
    (e : FSMEvent) (d : EventData) (fuel : Nat) (t : FSMTransition)
    (a : ExtEnv → FSMContext → EventData → HandlerResult)
    (msg : String) (ctx2 : FSMContext)
    (hfind : findTransition table cfg.state e = some t)
    (hguard : guardPasses t cfg.ctx d = true)
    (hact : t.action = some a)
    (hrun : a env cfg.ctx d = HandlerResult.thrown msg ctx2) :
    (sendRun (fuel + 1) table env cfg e d).state = FSMState.error ∧
    (sendRun (fuel + 1) table env cfg e d).ctx.error = some msg := by
  simp [sendRun, sendLoop, sendOnce, hfind, hguard, hact, hrun]

/-- A transition whose action always throws, with a declared target
that is not the error state. -/
def c1ThrowAction : ExtEnv → FSMContext → EventData → HandlerResult :=
  fun _ ctx _ => .thrown "boom" ctx

/-- A one-entry table holding the throwing transition. -/
def c1Table : List FSMTransition :=
  [⟨.idle, .RESET, .hosting, none, some c1ThrowAction⟩]

/-- Witness for C1: on the throwing transition targeting hosting, send
ends in error with the thrown message recorded. -/
theorem c1_action_throw_forces_error_witness :
    findTransition c1Table FSMState.idle FSMEvent.RESET =
      some ⟨.idle, .RESET, .hosting, none, some c1ThrowAction⟩ ∧
    (sendRun 1 c1Table envAllOk ⟨FSMState.idle, ctx0⟩ FSMEvent.RESET
        noData).state = FSMState.error ∧
    (sendRun 1 c1Table envAllOk ⟨FSMState.idle, ctx0⟩ FSMEvent.RESET
        noData).ctx.error = some "boom" :=
  ⟨rfl,
   (c1_action_throw_forces_error c1Table envAllOk ⟨FSMState.idle, ctx0⟩
      .RESET noData 0 ⟨.idle, .RESET, .hosting, none, some c1ThrowAction⟩
      c1ThrowAction "boom" ctx0 rfl rfl rfl rfl).1,
   (c1_action_throw_forces_error c1Table envAllOk ⟨FSMState.idle, ctx0⟩
      .RESET noData 0 ⟨.idle, .RESET, .hosting, none, some c1ThrowAction⟩
      c1ThrowAction "boom" ctx0 rfl rfl rfl rfl).2⟩

/-- Claim C2: for every pair without a table entry and for every
transition whose guard rejects the current context, send leaves the
state and the context unchanged (and, being total, does not throw). -/
theorem c2_unknown_or_guarded_noop
    (table : List FSMTransition) (env : ExtEnv) (cfg : FSMConfig)
    (e : FSMEvent) (d : EventData) (fuel : Nat)
    (h : findTransition table cfg.state e = none ∨
      ∃ t, findTransition table cfg.state e = some t ∧
        guardPasses t cfg.ctx d = false) :
    sendLoop fuel table env cfg e d = (cfg, []) := by
  cases fuel with
  | zero => rfl
  | succ n =>
    rcases h with h | ⟨t, hfind, hguard⟩
    · simp [sendLoop, sendOnce, h]
    · simp [sendLoop, sendOnce, hfind, hguard]

/-- Witness for C2: on the orchestrator table, SPEECH_COMPLETE in idle
has no entry, and CONNECTION_ESTABLISHED in connecting is rejected by
the isHost guard for the non-host context; both sends are no-ops. -/
theorem c2_unknown_or_guarded_noop_witness :
    findTransition tableOrch FSMState.idle FSMEvent.SPEECH_COMPLETE = none ∧
    sendLoop 5 tableOrch envAllOk ⟨FSMState.idle, ctx0⟩
      FSMEvent.SPEECH_COMPLETE noData = (⟨FSMState.idle, ctx0⟩, []) ∧
    sendLoop 5 tableOrch envAllOk ⟨FSMState.connecting, ctx0⟩
      FSMEvent.CONNECTION_ESTABLISHED noData =
      (⟨FSMState.connecting, ctx0⟩, []) :=
  ⟨rfl,
   c2_unknown_or_guarded_noop tableOrch envAllOk ⟨FSMState.idle, ctx0⟩
     FSMEvent.SPEECH_COMPLETE noData 5 (Or.inl rfl),
   c2_unknown_or_guarded_noop tableOrch envAllOk
     ⟨FSMState.connecting, ctx0⟩ FSMEvent.CONNECTION_ESTABLISHED noData 5
     (Or.inr ⟨_, rfl, rfl⟩)⟩

/-- Claim C3 (the code contradicts it): the ternary targets of the
SPEECH_COMPLETE transitions are evaluated once, in setupTransitions at
construction time, against the constructor context.  The orchestrator
always constructs the FSM with isHost = false, so after a successful
hosting run (the machine reached hosting and context.isHost is true)
the SPEECH_COMPLETE fired by handleSendTranslation lands in connected,
not in the hosting state the role held at that moment requires. -/
theorem c3_frozen_role_targets :
    hostRunConnected.state = FSMState.hosting ∧
    hostRunConnected.ctx.isHost = true ∧
    hostRunAwaiting.state = FSMState.awaiting_send ∧
    hostRun.ctx.isHost = true ∧
    hostRun.state = FSMState.connected ∧
    hostRun.state ≠ FSMState.hosting := by
  refine ⟨rfl, rfl, rfl, rfl, rfl, ?_⟩
  decide

/-- Table lookup fact: AUDIO_READY in processing targets translating
and runs handleAudioReady, whichever role the table was built with. -/
theorem find_processing_audio_ready (b : Bool) :
    findTransition (setupTransitions b) FSMState.processing
        FSMEvent.AUDIO_READY =
      some ⟨.processing, .AUDIO_READY, .translating, none,
            some handleAudioReady⟩ := rfl

/-- Table lookup fact: ERROR in translating targets error. -/
theorem find_translating_error (b : Bool) :
    findTransition (setupTransitions b) FSMState.translating
        FSMEvent.ERROR =
      some ⟨.translating, .ERROR, .error, none, some handleError⟩ := rfl

/-- Table lookup fact: the first TRANSLATION_COMPLETE entry found for
translating is the just-me branch (Array.prototype.find takes the first
match). -/
theorem find_translating_complete (b : Bool) :
    findTransition (setupTransitions b) FSMState.translating
        FSMEvent.TRANSLATION_COMPLETE =
      some ⟨.translating, .TRANSLATION_COMPLETE, .awaiting_send,
            some (fun ctx _ => decide (ctx.mode = Mode.justMe)),
            some handleTranslationComplete⟩ := rfl

/-- Table lookup fact: SEND_TRANSLATION in awaiting_send. -/
theorem find_awaiting_send_translation (b : Bool) :
    findTransition (setupTransitions b) FSMState.awaiting_send
        FSMEvent.SEND_TRANSLATION =
      some ⟨.awaiting_send, .SEND_TRANSLATION, .sending, none,
            some handleSendTranslation⟩ := rfl

/-- Table lookup fact: SKIP_SEND in awaiting_send, with the target
frozen from the construction-time role. -/
theorem find_awaiting_skip (b : Bool) :
    findTransition (setupTransitions b) FSMState.awaiting_send
        FSMEvent.SKIP_SEND =
      some ⟨.awaiting_send, .SKIP_SEND,
            (if b then .hosting else .connected), none,
            some handleSkipSend⟩ := rfl

/-- Table lookup fact: ERROR in sending targets error. -/
theorem find_sending_error (b : Bool) :
    findTransition (setupTransitions b) FSMState.sending FSMEvent.ERROR =
      some ⟨.sending, .ERROR, .error, none, some handleError⟩ := rfl

/-- Table lookup fact: SPEECH_COMPLETE in sending, frozen target. -/
theorem find_sending_speech_complete (b : Bool) :
    findTransition (setupTransitions b) FSMState.sending
        FSMEvent.SPEECH_COMPLETE =
      some ⟨.sending, .SPEECH_COMPLETE,
            (if b then .hosting else .connected), none, none⟩ := rfl

/-- An environment whose transcription result is whitespace only. -/
def envEmptyStt : ExtEnv := { envAllOk with sttResult := .ok "   " }

/-- A context holding a finished recording. -/
def ctxRec : FSMContext := { ctx0 with currentRecording := some 7 }

/-- Claim C4 counterexample: with an empty (whitespace-only) transcript
the run triggered by AUDIO_READY from processing does enter the state
translating before ending in error: send assigns the declared target
translating before the action runs, and the emptiness check lives
inside the action.  The claimed never-property over the states entered
is therefore false at this concrete input. -/
theorem c4_counterexample :
    FSMState.translating ∈
      (sendLoop 3 tableOrch envEmptyStt ⟨FSMState.processing, ctxRec⟩
        FSMEvent.AUDIO_READY noData).2 ∧
    (sendLoop 3 tableOrch envEmptyStt ⟨FSMState.processing, ctxRec⟩
        FSMEvent.AUDIO_READY noData).1.state = FSMState.error := by
  decide

/-- Claim C4 as amended: with a recording present and a transcription
result whose trimmed text is empty, handling AUDIO_READY from
processing ends in the error state with the no-speech message, but the
states entered along the way are exactly translating then error: the
machine passes transiently through translating, and only the final
state avoids it. -/
theorem c4_amended_empty_transcript (b : Bool) (env : ExtEnv)
    (ctx : FSMContext) (r : Nat) (text : String)
    (hrec : ctx.currentRecording = some r)
    (hstt : env.sttResult = Except.ok text)
    (hempty : jsTrim text = "") :
    (sendLoop 3 (setupTransitions b) env ⟨FSMState.processing, ctx⟩
      FSMEvent.AUDIO_READY noData).1.state = FSMState.error ∧
    (sendLoop 3 (setupTransitions b) env ⟨FSMState.processing, ctx⟩
      FSMEvent.AUDIO_READY noData).1.ctx.error =
        some "No speech detected in recording" ∧
    (sendLoop 3 (setupTransitions b) env ⟨FSMState.processing, ctx⟩
      FSMEvent.AUDIO_READY noData).2 =
        [FSMState.translating, FSMState.error] := by
  simp [sendLoop, sendOnce, find_processing_audio_ready,
        find_translating_error, guardPasses, handleAudioReady, handleError,
        hrec, hstt, hempty, errData]

/-- Witness for the amended C4 at the concrete whitespace-transcript
input. -/
theorem c4_amended_empty_transcript_witness :
    ctxRec.currentRecording = some 7 ∧
    envEmptyStt.sttResult = Except.ok "   " ∧
    jsTrim "   " = "" ∧
    (sendLoop 3 (setupTransitions false) envEmptyStt
      ⟨FSMState.processing, ctxRec⟩ FSMEvent.AUDIO_READY noData).1.state =
      FSMState.error :=
  ⟨rfl, rfl, rfl,
   (c4_amended_empty_transcript false envEmptyStt ctxRec 7 "   "
      rfl rfl rfl).1⟩

/-- Claim C5: when the translate step succeeds with text tOut and the
enhancement request throws or returns no content, enhanceTranslation
returns tOut unchanged (its catch keeps the failure from the caller);
the just-me TRANSLATION_COMPLETE action stores pendingTranslation with
translatedText = tOut, the talk-together action delivers an exchange
whose translatedText is tOut, and the exchange sent by
handleSendTranslation from such a pending record carries tOut. -/
theorem c5_enhance_failure_preserves_translation
    (eout : Except String (Option String)) (tOut : String) (b : Bool)
    (env : ExtEnv) (ctx : FSMContext) (pt : PendingTranslation) (buf : Nat)
    (hfail : (∃ m, eout = Except.error m) ∨ eout = Except.ok none)
    (hor : env.openRouterResult = eout)
    (hdeepl : env.deeplResult = Except.ok tOut)
    (hpt : ctx.pendingTranslation = some pt)
    (horig : ¬ pt.originalText = "")
    (hmode : ctx.mode = Mode.justMe)
    (htts : env.elevenTts = Except.ok buf) :
    enhanceTranslation eout tOut = tOut ∧
    (sendRun 2 (setupTransitions b) env ⟨FSMState.translating, ctx⟩
        FSMEvent.TRANSLATION_COMPLETE noData).ctx.pendingTranslation =
      some ⟨pt.originalText, tOut, some buf⟩ ∧
    (∀ _hplay : env.elevenStreamAndPlay = Except.ok ()
     , ∀ _hsave : env.neonSaveTranslation = Except.ok ()
     , Option.map (fun m => m.translatedText)
        (handleTranslationCompleteAutoPlay env ctx noData).ctxOf.lastTranslation
        = some tOut) ∧
    (∀ ctx2 : FSMContext, ∀ o : String, ∀ ab : Option Nat,
      ctx2.pendingTranslation = some ⟨o, tOut, ab⟩ →
      env.ablySendTranslation = Except.ok () →
      env.neonSaveTranslation = Except.ok () →
      env.elevenPlayBuffer = Except.ok () →
      Option.map (fun m => m.translatedText)
        (handleSendTranslation env ctx2 noData).ctxOf.lastTranslation
        = some tOut ∧
      (handleSendTranslation env ctx2 noData).ctxOf.pendingTranslation
        = none) := by
  have henh : enhanceTranslation eout tOut = tOut := by
    rcases hfail with ⟨m, hm⟩ | hm
    · simp [enhanceTranslation, hm]
    · simp [enhanceTranslation, hm]
  refine ⟨henh, ?_, ?_, ?_⟩
  · simp [sendRun, sendLoop, sendOnce, find_translating_complete,
          guardPasses, handleTranslationComplete, hpt, horig, hmode,
          hdeepl, hor, htts, henh]
  · intro hplay hsave
    cases hsess : ctx.sessionId with
    | none =>
      simp [handleTranslationCompleteAutoPlay, hpt, horig, hdeepl, hor,
            henh, hplay, hsave, hsess, HandlerResult.ctxOf, mkMessage]
    | some sid =>
      simp [handleTranslationCompleteAutoPlay, hpt, horig, hdeepl, hor,
            henh, hplay, hsave, hsess, HandlerResult.ctxOf, mkMessage]
  · intro ctx2 o ab hpt2 hsend hsave hplay
    cases hsess : ctx2.sessionId with
    | none =>
      cases ab with
      | none =>
        simp [handleSendTranslation, hpt2, hsess, hsend, hsave, hplay,
              HandlerResult.ctxOf, mkMessage]
      | some a =>
        simp [handleSendTranslation, hpt2, hsess, hsend, hsave, hplay,
              HandlerResult.ctxOf, mkMessage]
    | some sid =>
      cases ab with
      | none =>
        simp [handleSendTranslation, hpt2, hsess, hsend, hsave, hplay,
              HandlerResult.ctxOf, mkMessage]
      | some a =>
        simp [handleSendTranslation, hpt2, hsess, hsend, hsave, hplay,
              HandlerResult.ctxOf, mkMessage]

/-- An environment whose enhancement request throws. -/
def envC5 : ExtEnv := { envAllOk with openRouterResult := .error "x" }

/-- A translating-stage context holding the freshly transcribed text. -/
def ctxC5 : FSMContext :=
  { ctx0 with pendingTranslation := some ⟨"hello", "", none⟩ }

/-- Witness for C5: the enhancement request throws, DeepL returned
hola, and the pending exchange ends up carrying hola unchanged. -/
theorem c5_enhance_failure_preserves_translation_witness :
    envC5.openRouterResult = Except.error "x" ∧
    enhanceTranslation (Except.error "x") "hola" = "hola" ∧
    (sendRun 2 tableOrch envC5 ⟨FSMState.translating, ctxC5⟩
        FSMEvent.TRANSLATION_COMPLETE noData).ctx.pendingTranslation =
      some ⟨"hello", "hola", some 99⟩ :=
  ⟨rfl,
   (c5_enhance_failure_preserves_translation (Except.error "x") "hola"
      false envC5 ctxC5 ⟨"hello", "", none⟩ 99 (Or.inl ⟨"x", rfl⟩) rfl rfl
      rfl (by decide) rfl rfl).1,
   (c5_enhance_failure_preserves_translation (Except.error "x") "hola"
      false envC5 ctxC5 ⟨"hello", "", none⟩ 99 (Or.inl ⟨"x", rfl⟩) rfl rfl
      rfl (by decide) rfl rfl).2.1⟩

/-- A DISCONNECT send from any of its source states lands in the
disconnected state with the context computed by handleDisconnectRun,
for every environment: the single catch in the handler swallows every
failure, so the transition always completes. -/
theorem disconnect_run_eq (b : Bool) (env : ExtEnv) (ctx : FSMContext)
    (s : FSMState) (hs : s ∈ disconnectSources) :
    sendRun 2 (setupTransitions b) env ⟨s, ctx⟩ FSMEvent.DISCONNECT
        noData =
      ⟨FSMState.disconnected, (handleDisconnectRun env ctx).1⟩ := by
  fin_cases hs <;> rfl

/-- An environment in which leaving the realtime session fails. -/
def envLeaveFail : ExtEnv :=
  { envAllOk with ablyLeaveSession := .error "ably down" }

/-- A mid-session host context. -/
def ctxSess : FSMContext :=
  { ctx0 with sessionId := some "sess1", isHost := true }

/-- Claim C6 counterexample: when leaving the realtime session throws,
the steps after it (participant removal, session end, context reset)
do not run — the whole cleanup shares one try/catch — so the session id
survives the DISCONNECT.  The claimed isolation of the cleanup steps is
false at this concrete input. -/
theorem c6_counterexample :
    (handleDisconnectRun envLeaveFail ctxSess).2 =
      [CleanupStep.destroyRecorder, CleanupStep.webrtcDisconnect] ∧
    CleanupStep.removeParticipant ∉
      (handleDisconnectRun envLeaveFail ctxSess).2 ∧
    CleanupStep.resetContext ∉
      (handleDisconnectRun envLeaveFail ctxSess).2 ∧
    (sendRun 2 tableOrch envLeaveFail ⟨FSMState.hosting, ctxSess⟩
        FSMEvent.DISCONNECT noData).ctx.sessionId = some "sess1" := by
  decide

/-- Claim C6 as amended: DISCONNECT never throws and always completes
into the disconnected state, whatever the environment, but the cleanup
steps are not isolated: the whole sequence sits in a single try/catch,
so when leaving the realtime session fails, the steps before it (the
recorder and peer teardown) have run while participant removal, session
end and the context reset are all skipped and the context is left
untouched. -/
theorem c6_amended_single_catch (b : Bool) (env : ExtEnv)
    (ctx : FSMContext) (s : FSMState) (m : String)
    (hs : s ∈ disconnectSources)
    (hleave : env.ablyLeaveSession = Except.error m) :
    (∀ env2 : ExtEnv,
      (sendRun 2 (setupTransitions b) env2 ⟨s, ctx⟩ FSMEvent.DISCONNECT
        noData).state = FSMState.disconnected) ∧
    (sendRun 2 (setupTransitions b) env ⟨s, ctx⟩ FSMEvent.DISCONNECT
        noData).ctx = ctx ∧
    CleanupStep.removeParticipant ∉ (handleDisconnectRun env ctx).2 ∧
    CleanupStep.resetContext ∉ (handleDisconnectRun env ctx).2 ∧
    CleanupStep.destroyRecorder ∈ (handleDisconnectRun env ctx).2 ∧
    CleanupStep.webrtcDisconnect ∈ (handleDisconnectRun env ctx).2 := by
  have hsteps : (handleDisconnectRun env ctx).2 =
      (if env.recorderIsRecording then [CleanupStep.stopRecorder] else [])
        ++ [CleanupStep.destroyRecorder, CleanupStep.webrtcDisconnect] := by
    simp [handleDisconnectRun, hleave]
  refine ⟨?_, ?_, ?_, ?_, ?_, ?_⟩
  · intro env2
    rw [disconnect_run_eq b env2 ctx s hs]
  · rw [disconnect_run_eq b env ctx s hs]
    simp [handleDisconnectRun, hleave]
  · rw [hsteps]
    cases env.recorderIsRecording <;> decide
  · rw [hsteps]
    cases env.recorderIsRecording <;> decide
  · rw [hsteps]
    cases env.recorderIsRecording <;> decide
  · rw [hsteps]
    cases env.recorderIsRecording <;> decide

/-- Witness for the amended C6 at the concrete failing-leave input. -/
theorem c6_amended_single_catch_witness :
    envLeaveFail.ablyLeaveSession = Except.error "ably down" ∧
    FSMState.recording ∈ disconnectSources ∧
    (sendRun 2 (setupTransitions false) envLeaveFail
        ⟨FSMState.recording, ctxSess⟩ FSMEvent.DISCONNECT noData).ctx =
      ctxSess :=
  ⟨rfl, by decide,
   (c6_amended_single_catch false envLeaveFail ctxSess FSMState.recording
      "ably down" (by decide) rfl).2.1⟩

/-- An environment in which removing the participant record fails. -/
def envRemoveFail : ExtEnv :=
  { envAllOk with neonRemoveParticipant := .error "db down" }

/-- Claim C7 counterexample: a DISCONNECT that completes (the machine
is in disconnected) after the participant-removal call threw leaves the
context exactly as it was — in particular sessionId is still set, not
cleared: the single try/catch of handleDisconnect abandoned the reset.
The unconditional claim is therefore false at this concrete input. -/
theorem c7_counterexample :
    (sendRun 2 tableOrch envRemoveFail ⟨FSMState.hosting, ctxSess⟩
        FSMEvent.DISCONNECT noData).state = FSMState.disconnected ∧
    (sendRun 2 tableOrch envRemoveFail ⟨FSMState.hosting, ctxSess⟩
        FSMEvent.DISCONNECT noData).ctx.sessionId = some "sess1" := by
  decide

/-- The context after a DISCONNECT send completes. -/
def afterDisconnect (b : Bool) (env : ExtEnv) (s : FSMState)
    (ctx : FSMContext) : FSMContext :=
  (sendRun 2 (setupTransitions b) env ⟨s, ctx⟩ FSMEvent.DISCONNECT
    noData).ctx

/-- Claim C7 as amended: when the awaited cleanup calls succeed, the
DISCONNECT reset clears sessionId, participants, currentRecording,
lastTranslation, pendingTranslation and error, and preserves userId,
username, sourceLanguage and targetLanguage exactly.  (When a cleanup
call throws, the reset is skipped and every field keeps its prior
value, as the counterexample shows; that failure path is also the
subject of the amended C6.) -/
theorem c7_disconnect_frame (b : Bool) (env : ExtEnv) (s : FSMState)
    (ctx : FSMContext) (hs : s ∈ disconnectSources)
    (h1 : env.ablyLeaveSession = Except.ok ())
    (h2 : env.neonRemoveParticipant = Except.ok ())
    (h3 : env.neonEndSession = Except.ok ()) :
    (afterDisconnect b env s ctx).sessionId = none ∧
    (afterDisconnect b env s ctx).participants = [] ∧
    (afterDisconnect b env s ctx).currentRecording = none ∧
    (afterDisconnect b env s ctx).lastTranslation = none ∧
    (afterDisconnect b env s ctx).pendingTranslation = none ∧
    (afterDisconnect b env s ctx).error = none ∧
    (afterDisconnect b env s ctx).userId = ctx.userId ∧
    (afterDisconnect b env s ctx).username = ctx.username ∧
    (afterDisconnect b env s ctx).sourceLanguage = ctx.sourceLanguage ∧
    (afterDisconnect b env s ctx).targetLanguage = ctx.targetLanguage := by
  have hrun : afterDisconnect b env s ctx = resetCtx ctx := by
    unfold afterDisconnect
    rw [disconnect_run_eq b env ctx s hs]
    cases hsess : ctx.sessionId with
    | none => simp [handleDisconnectRun, h1, hsess]
    | some sid =>
      cases hhost : ctx.isHost with
      | false => simp [handleDisconnectRun, h1, h2, h3, hsess, hhost]
      | true => simp [handleDisconnectRun, h1, h2, h3, hsess, hhost]
  rw [hrun]
  simp [resetCtx]

/-- Witness for C7 on the mid-session host context with every cleanup
call succeeding. -/
theorem c7_disconnect_frame_witness :
    envAllOk.ablyLeaveSession = Except.ok () ∧
    (afterDisconnect false envAllOk FSMState.hosting ctxSess).sessionId =
      none ∧
    (afterDisconnect false envAllOk FSMState.hosting ctxSess).username =
      ctxSess.username :=
  ⟨rfl,
   (c7_disconnect_frame false envAllOk FSMState.hosting ctxSess
      (by decide) rfl rfl rfl).1,
   (c7_disconnect_frame false envAllOk FSMState.hosting ctxSess
      (by decide) rfl rfl rfl).2.2.2.2.2.2.2.1⟩

/-- An environment in which publishing the exchange fails. -/
def envPubFail : ExtEnv :=
  { envAllOk with ablySendTranslation := .error "publish failed" }

/-- A reachable run in which the publish inside SEND_TRANSLATION fails:
host, record, stop, then confirm the send against a failing publish. -/
def pendingStuckRun : FSMConfig :=
  sendSeq 10 tableOrch envPubFail ⟨FSMState.idle, ctx0⟩
    [ (.START_HOST, noData)
    , (.START_RECORDING, noData)
    , (.STOP_RECORDING, noData)
    , (.SEND_TRANSLATION, noData) ]

/-- Claim C8 counterexample: after the failing SEND_TRANSLATION the
machine has moved to the error state and pendingTranslation is still
non-empty — a reachable configuration outside awaiting_send holding a
pending exchange, reached by an event (the internal ERROR) that moved
the machine to error without clearing it. -/
theorem c8_counterexample :
    pendingStuckRun.state = FSMState.error ∧
    pendingStuckRun.ctx.pendingTranslation =
      some ⟨"hello", "hola senor", some 99⟩ := by
  decide

/-- Claim C8 as amended: pendingTranslation is cleared by SKIP_SEND and
by a successful SEND_TRANSLATION, but a transition to the error state
preserves it (handleError does not touch it), so the pending exchange
can outlive awaiting_send. -/
theorem c8_amended_pending_clearing (b : Bool) (env : ExtEnv)
    (ctx : FSMContext) :
    (sendRun 2 (setupTransitions b) env ⟨FSMState.awaiting_send, ctx⟩
        FSMEvent.SKIP_SEND noData).ctx.pendingTranslation = none ∧
    (∀ o tOut : String, ∀ ab : Option Nat,
      ctx.pendingTranslation = some ⟨o, tOut, ab⟩ →
      env.ablySendTranslation = Except.ok () →
      env.neonSaveTranslation = Except.ok () →
      env.elevenPlayBuffer = Except.ok () →
      (sendRun 3 (setupTransitions b) env ⟨FSMState.awaiting_send, ctx⟩
        FSMEvent.SEND_TRANSLATION noData).ctx.pendingTranslation = none) ∧
    (∀ d : EventData,
      (sendRun 2 (setupTransitions b) env ⟨FSMState.sending, ctx⟩
        FSMEvent.ERROR d).ctx.pendingTranslation =
        ctx.pendingTranslation) := by
  refine ⟨rfl, ?_, fun d => rfl⟩
  intro o tOut ab hpt hsend hsave hplay
  cases hsess : ctx.sessionId with
  | none =>
    cases ab with
    | none =>
      simp [sendRun, sendLoop, sendOnce, find_awaiting_send_translation,
            find_sending_speech_complete, guardPasses,
            handleSendTranslation, mkMessage, hpt, hsess, hsend, hsave,
            hplay]
    | some a =>
      simp [sendRun, sendLoop, sendOnce, find_awaiting_send_translation,
            find_sending_speech_complete, guardPasses,
            handleSendTranslation, mkMessage, hpt, hsess, hsend, hsave,
            hplay]
  | some sid =>
    cases ab with
    | none =>
      simp [sendRun, sendLoop, sendOnce, find_awaiting_send_translation,
            find_sending_speech_complete, guardPasses,
            handleSendTranslation, mkMessage, hpt, hsess, hsend, hsave,
            hplay]
    | some a =>
      simp [sendRun, sendLoop, sendOnce, find_awaiting_send_translation,
            find_sending_speech_complete, guardPasses,
            handleSendTranslation, mkMessage, hpt, hsess, hsend, hsave,
            hplay]

/-- A context in awaiting_send holding a full pending exchange. -/
def ctxPending : FSMContext :=
  { ctx0 with sessionId := some "sess1",
              pendingTranslation := some ⟨"hello", "hola", some 99⟩ }

/-- Witness for the amended C8: on the concrete pending context a
successful SEND_TRANSLATION clears the pending exchange, and so does
SKIP_SEND. -/
theorem c8_amended_pending_clearing_witness :
    ctxPending.pendingTranslation = some ⟨"hello", "hola", some 99⟩ ∧
    (sendRun 3 (setupTransitions false) envAllOk
        ⟨FSMState.awaiting_send, ctxPending⟩ FSMEvent.SEND_TRANSLATION
        noData).ctx.pendingTranslation = none ∧
    (sendRun 2 (setupTransitions false) envAllOk
        ⟨FSMState.awaiting_send, ctxPending⟩ FSMEvent.SKIP_SEND
        noData).ctx.pendingTranslation = none :=
  ⟨rfl,
   (c8_amended_pending_clearing false envAllOk ctxPending).2.1
     "hello" "hola" (some 99) rfl rfl rfl rfl,
   (c8_amended_pending_clearing false envAllOk ctxPending).1⟩

/-- An exchange whose sender is the local user of ctx0. -/
def msgOwn : TranslationMessage :=
  ⟨"m1", "sess1", "u1", "hi", "hola", "en", "es", 5, none⟩

/-- An exchange published by a remote participant. -/
def msgOther : TranslationMessage :=
  ⟨"m2", "sess1", "u2", "hi", "hola", "en", "es", 6, none⟩

/-- Claim C9 counterexample: the subscription installed by
onTranslationReceived invokes the registered callback even for a
message whose senderId equals the local userId — the handler in the
ably module forwards every message on the translations topic with no
sender filter, so the claim that the callback is invoked only for
other senders is false at this concrete input. -/
theorem c9_counterexample :
    msgOwn.senderId = ctx0.userId ∧
    ablyDeliverTranslation (fun t => t.id) msgOwn = ["m1"] := by
  decide

/-- Claim C9 as amended: onTranslationReceived invokes the registered
callback for every published exchange, the sender included; the
no-self-processing guarantee lives in the callback the FSM registers,
which ignores exchanges whose senderId equals the local userId and
processes all others (stores lastTranslation and plays the audio). -/
theorem c9_amended_filter_in_fsm (ctx : FSMContext)
    (t : TranslationMessage) :
    (∀ α : Type, ∀ cb : TranslationMessage → α,
      ablyDeliverTranslation cb t = [cb t]) ∧
    (t.senderId = ctx.userId →
      fsmTranslationCallback ctx t = (ctx, false)) ∧
    (t.senderId ≠ ctx.userId →
      fsmTranslationCallback ctx t =
        ({ ctx with lastTranslation := some t }, true)) := by
  refine ⟨fun α cb => rfl, ?_, ?_⟩
  · intro h
    simp [fsmTranslationCallback, h]
  · intro h
    simp [fsmTranslationCallback, h]

/-- Witness for the amended C9: the local user ignores its own
broadcast and processes a remote one. -/
theorem c9_amended_filter_in_fsm_witness :
    msgOwn.senderId = ctx0.userId ∧
    fsmTranslationCallback ctx0 msgOwn = (ctx0, false) ∧
    fsmTranslationCallback ctx0 msgOther =
      ({ ctx0 with lastTranslation := some msgOther }, true) :=
  ⟨rfl,
   (c9_amended_filter_in_fsm ctx0 msgOwn).2.1 rfl,
   (c9_amended_filter_in_fsm ctx0 msgOther).2.2 (by decide)⟩

/-- Deleting a key removes every lookup hit for it. -/
theorem mapGet_mapDelete {α : Type} (m : List (String × α)) (k : String) :
    mapGet (mapDelete m k) k = none := by
  induction m with
  | nil => rfl
  | cons a rest ih =>
    by_cases h : a.1 = k
    · simpa [mapDelete, List.filter_cons, h] using ih
    · simpa [mapDelete, List.filter_cons, mapGet, h] using ih

/-- Deleting a key removes every registration counted for it. -/
theorem countKey_mapDelete {α : Type} (m : List (String × α))
    (k : String) : countKey (mapDelete m k) k = 0 := by
  induction m with
  | nil => rfl
  | cons a rest ih =>
    by_cases h : a.1 = k
    · simp [mapDelete, countKey, List.filter_cons, h, ih]
    · simp [mapDelete, countKey, List.filter_cons, h, ih]

/-- Setting a key leaves exactly one registration for it. -/
theorem countKey_mapSet {α : Type} (m : List (String × α)) (k : String)
    (v : α) : countKey (mapSet m k v) k = 1 := by
  have h := countKey_mapDelete m k
  simp [mapSet, countKey, List.filter_cons] at h ⊢
  simpa [countKey] using h

/-- Claim C10: the recorder registry keeps at most one callback per
event name — a second on(e, c2) replaces c1, emitting e invokes only
c2, and the unsubscribe handle returned by either call (both delete
the key e) removes the sole registration for e. -/
theorem c10_single_callback_registry {α : Type}
    (m0 : List (String × α)) (e : String) (c1 c2 : α) :
    emitEvent (recorderOn (recorderOn m0 e c1).1 e c2).1 e = some c2 ∧
    (c1 ≠ c2 →
      emitEvent (recorderOn (recorderOn m0 e c1).1 e c2).1 e ≠ some c1) ∧
    countKey (recorderOn (recorderOn m0 e c1).1 e c2).1 e = 1 ∧
    (recorderOn m0 e c1).2 = e ∧
    (recorderOn (recorderOn m0 e c1).1 e c2).2 = e ∧
    emitEvent
      (mapDelete (recorderOn (recorderOn m0 e c1).1 e c2).1
        (recorderOn m0 e c1).2) e = none ∧
    emitEvent
      (mapDelete (recorderOn (recorderOn m0 e c1).1 e c2).1
        (recorderOn (recorderOn m0 e c1).1 e c2).2) e = none := by
  refine ⟨?_, ?_, ?_, rfl, rfl, ?_, ?_⟩
  · simp [recorderOn, emitEvent, mapSet, mapGet]
  · intro hne
    simp [recorderOn, emitEvent, mapSet, mapGet]
    exact fun h => hne h.symm
  · exact countKey_mapSet _ e c2
  · exact mapGet_mapDelete _ e
  · exact mapGet_mapDelete _ e

/-- Witness for C10 on a concrete registry. -/
theorem c10_single_callback_registry_witness :
    emitEvent (recorderOn (recorderOn ([] : List (String × Nat)) "stop" 1).1
      "stop" 2).1 "stop" = some 2 ∧
    emitEvent (recorderOn (recorderOn ([] : List (String × Nat)) "stop" 1).1
      "stop" 2).1 "stop" ≠ some 1 ∧
    countKey (recorderOn (recorderOn ([] : List (String × Nat)) "stop" 1).1
      "stop" 2).1 "stop" = 1 ∧
    emitEvent
      (mapDelete (recorderOn (recorderOn ([] : List (String × Nat)) "stop"
        1).1 "stop" 2).1
        (recorderOn ([] : List (String × Nat)) "stop" 1).2) "stop" =
      none :=
  ⟨(c10_single_callback_registry [] "stop" 1 2).1,
   (c10_single_callback_registry [] "stop" 1 2).2.1 (by decide),
   (c10_single_callback_registry [] "stop" 1 2).2.2.1,
   (c10_single_callback_registry [] "stop" 1 2).2.2.2.2.2.1⟩

end Bridgit
